import Mathlib

/-!
Formal model of the long-running media-generation orchestration endpoints:
request validation, credential handling, job submission, bounded polling,
result retrieval and idempotent materialization, translated from the
repository's edge-function sources (veo-video-generation,
sora-video-generation, heygen-video-generation, kling-video,
openai-transcript-generation).

External I/O (HTTP responses, catalog contents, storage results, the
wall clock) is passed in explicitly as an environment, and each handler
is a pure function from its request and environment to the ordered list
of externally visible actions it performs together with its HTTP-style
outcome.  Wall-clock time is modelled in milliseconds; a status query is
treated as instantaneous, so time advances only across the poll-loop
sleeps.
-/

/-- HTTP-style outcome of a run: a status code plus the error message the
handler put in its JSON body (`none` on success). -/
structure Out where
  status : Nat
  errMsg : Option String
deriving DecidableEq, Repr

/-- JavaScript `String.prototype.trim()`: strip leading and trailing
whitespace. -/
def jsTrim (s : String) : String :=
  ⟨((s.data.dropWhile Char.isWhitespace).reverse.dropWhile Char.isWhitespace).reverse⟩

/-- JavaScript string interpolation of a possibly-absent value:
`undefined` renders as the literal text "undefined". -/
def jsStr (o : Option String) : String :=
  match o with
  | some s => s
  | none => "undefined"

/-- JavaScript truthiness of an optional string: `undefined` and the
empty string are falsy. -/
def jsTruthyStr (o : Option String) : Bool :=
  match o with
  | some s => s != ""
  | none => false

/-- Character-list version of `String.startsWith`. -/
def startsWithChars : List Char → List Char → Bool
  | _, [] => true
  | [], _ :: _ => false
  | c :: s, p :: ps => c = p && startsWithChars s ps

/-- JavaScript `String.prototype.includes`: substring containment. -/
def includesChars (pat : List Char) : List Char → Bool
  | [] => startsWithChars [] pat
  | c :: s => startsWithChars (c :: s) pat || includesChars pat s

/-- Result of one poll-loop run: the wall-clock time at exit, the number
of status queries performed, and the index of the query whose response
ended the loop (`none` when the deadline was reached first). -/
structure PollRun where
  finalTime : Nat
  iters : Nat
  hit : Option Nat
deriving DecidableEq, Repr

/-- The poll-loop skeleton shared by every endpoint
(`pollUntilComplete` / `pollTask`): while the current time is before the
deadline, sleep for the poll interval, then query; `exits k` says
whether the k-th response ends the loop (a terminal status, or a
response on which the code throws). -/
def pollLoop (exits : Nat → Bool) (deadline interval : Nat)
    (hpos : 0 < interval) (now k : Nat) : PollRun :=
  if h : now < deadline then
    if exits k then ⟨now + interval, k + 1, some k⟩
    else pollLoop exits deadline interval hpos (now + interval) (k + 1)
  else ⟨now, k, none⟩
termination_by deadline - now
decreasing_by
  exact Nat.sub_lt_sub_left h (Nat.lt_add_of_pos_right hpos)

/-- Ceiling division on naturals. -/
def ceilDiv (a b : Nat) : Nat := (a + b - 1) / b

/-! ## Veo endpoint (`supabase/functions/veo-video-generation/index.ts`) -/

structure VeoRequest where
  gemini_api_key : String
  prompt : String
  model : Option String
  aspect_ratio : Option String
  resolution : Option String
  duration_seconds : Option String
  negative_prompt : Option String
  image_url : Option String
  person_generation : Option String
deriving DecidableEq, Repr

/-- Validation performed by the Veo handler before any credential use or
network call, in source order.  The resolution/duration check is applied
to the destructured values, i.e. after the documented defaults
("720p", "8") are filled in. -/
def veoValidate (r : VeoRequest) : Option Out :=
  if jsTrim r.gemini_api_key = "" then some ⟨400, some "gemini_api_key is required"⟩
  else if jsTrim r.prompt = "" then some ⟨400, some "prompt is required"⟩
  else if (r.resolution.getD "720p" = "1080p" ∨ r.resolution.getD "720p" = "4k")
      ∧ r.duration_seconds.getD "8" ≠ "8" then
    some ⟨400, some "1080p and 4k resolution only support duration_seconds = '8'"⟩
  else none

/-- First-frame image passed inline after being fetched. -/
structure VeoImage where
  mimeType : String
  data : String
deriving DecidableEq, Repr

structure VeoParameters where
  aspectRatio : String
  resolution : String
  durationSeconds : String
  personGeneration : String
  numberOfVideos : Nat
  negativePrompt : Option String
deriving DecidableEq, Repr

structure VeoPayload where
  prompt : String
  image : Option VeoImage
  parameters : VeoParameters
deriving DecidableEq, Repr

/-- The submission payload built by the Veo handler: documented defaults
for every optional field the caller did not supply; `negativePrompt` is
attached only when non-blank. -/
def veoPayloadOf (r : VeoRequest) (img : Option VeoImage) : VeoPayload :=
  { prompt := r.prompt
    image := img
    parameters :=
      { aspectRatio := r.aspect_ratio.getD "16:9"
        resolution := r.resolution.getD "720p"
        durationSeconds := r.duration_seconds.getD "8"
        personGeneration := r.person_generation.getD "allow_all"
        numberOfVideos := 1
        negativePrompt :=
          match r.negative_prompt with
          | some s => if jsTrim s = "" then none else some s
          | none => none } }

/-- A parsed Veo long-running operation object. -/
structure VeoOp where
  done : Bool
  errMsg : Option String
  videoUri : Option String
deriving DecidableEq, Repr

/-- External world, as observed by one Veo run. -/
structure VeoEnv where
  imageOk : Bool
  fetchedImage : VeoImage
  createOk : Bool
  createStatus : Nat
  createName : Option String
  pollOk : Nat → Bool
  pollOp : Nat → VeoOp
  videoOk : Bool
  uploadErr : Option String

/-- Externally visible actions of a Veo run, in order. -/
inductive VeoEv
  | imageFetch
  | submit (p : VeoPayload)
  | pollQuery
  | download (uri : String)
  | upload (key : String)
deriving DecidableEq, Repr

def VEO_MAX_WAIT : Nat := 10 * 60 * 1000

def VEO_INTERVAL : Nat := 10000

/-- The Veo poll loop exits on a transport failure (the code throws) or
on `operation.done`. -/
def veoExits (env : VeoEnv) (k : Nat) : Bool :=
  !env.pollOk k || (env.pollOp k).done

/-- Replace each '/' character by '_' (the `replace(/\//g, "_")` of the
source). -/
def replaceSlashes (s : List Char) : List Char :=
  s.map fun c => if c = '/' then '_' else c

/-- Storage key derived from the Veo operation name. -/
def veoFileName (opName : String) : String :=
  ⟨replaceSlashes opName.data ++ ".mp4".data⟩

/-- Veo run from a completed (done) operation onward. -/
def veoAfterPoll (env : VeoEnv) (opName : String) (op : VeoOp) : List VeoEv × Out :=
  match op.errMsg with
  | some _ => ([], ⟨500, some "Veo video generation failed"⟩)
  | none =>
    match op.videoUri with
    | none => ([], ⟨500, some "Veo returned done=true but no video URI found."⟩)
    | some uri =>
      if env.videoOk = false then
        ([.download uri], ⟨500, some "Failed to download video from Veo"⟩)
      else
        match env.uploadErr with
        | some _ =>
          ([.download uri, .upload (veoFileName opName)],
            ⟨500, some "Supabase Storage upload failed"⟩)
        | none =>
          ([.download uri, .upload (veoFileName opName)], ⟨200, none⟩)

/-- Veo run from job submission onward: a non-success acceptance is
passed through with the provider's status code; a success acceptance
with no operation name is a 500; otherwise poll to completion. -/
def veoSubmitStage (r : VeoRequest) (env : VeoEnv) (img : Option VeoImage)
    (t0 : Nat) : List VeoEv × Out :=
  let p := veoPayloadOf r img
  if env.createOk = false then
    ([.submit p], ⟨env.createStatus, some "Veo job creation failed"⟩)
  else
    match env.createName with
    | none => ([.submit p], ⟨500, some "Veo did not return an operation name"⟩)
    | some opName =>
      let run := pollLoop (veoExits env) (t0 + VEO_MAX_WAIT) VEO_INTERVAL (by decide) t0 0
      let evs := VeoEv.submit p :: List.replicate run.iters VeoEv.pollQuery
      match run.hit with
      | none => (evs, ⟨500, some "Timed out waiting for Veo video (10 min limit reached)."⟩)
      | some k =>
        if env.pollOk k = false then (evs, ⟨500, some "Poll failed"⟩)
        else
          let rest := veoAfterPoll env opName (env.pollOp k)
          (evs ++ rest.1, rest.2)

/-- The full Veo handler (CORS/method handling elided). -/
def veoHandler (r : VeoRequest) (env : VeoEnv) (t0 : Nat) : List VeoEv × Out :=
  match veoValidate r with
  | some o => ([], o)
  | none =>
    match r.image_url with
    | some _ =>
      if env.imageOk then
        let rest := veoSubmitStage r env (some env.fetchedImage) t0
        (VeoEv.imageFetch :: rest.1, rest.2)
      else ([.imageFetch], ⟨400, some "Could not fetch image_url"⟩)
    | none => veoSubmitStage r env none t0

/-! ## Sora endpoint (`supabase/functions/sora-video-generation/index.ts`) -/

structure SoraRequest where
  openai_api_key : String
  prompt : String
  model : Option String
  size : Option String
  seconds : Option Rat
  input_reference_url : Option String
deriving DecidableEq, Repr

def soraValidate (r : SoraRequest) : Option Out :=
  if jsTrim r.openai_api_key = "" then some ⟨400, some "openai_api_key is required"⟩
  else if jsTrim r.prompt = "" then some ⟨400, some "prompt is required"⟩
  else if r.seconds.getD 5 < 5 ∨ r.seconds.getD 5 > 20 then
    some ⟨400, some "seconds must be between 5 and 20"⟩
  else none

/-- A parsed Sora job object; the source never checks that `id` is
present, so it is optional here. -/
structure SoraJobM where
  id : Option String
  status : String
  error : Option String
deriving DecidableEq, Repr

structure SoraEnv where
  refOk : Bool
  createOk : Bool
  createStatus : Nat
  createId : Option String
  pollOk : Nat → Bool
  pollJob : Nat → SoraJobM
  videoOk : Bool
  uploadErr : Option String

/-- Externally visible actions of a Sora run; a poll query records the
job-identifier text interpolated into the status URL. -/
inductive SoraEv
  | refFetch
  | submit
  | pollQuery (jobId : String)
  | download
  | upload (key : String)
deriving DecidableEq, Repr

def SORA_MAX_WAIT : Nat := 12 * 60 * 1000

def SORA_INTERVAL : Nat := 10000

def soraExits (env : SoraEnv) (k : Nat) : Bool :=
  !env.pollOk k || ((env.pollJob k).status == "completed")
    || ((env.pollJob k).status == "failed")

def soraFileName (id : String) : String := id ++ ".mp4"

/-- Sora run from job submission onward.  Note that after a success
acceptance the code reads `job.id` without checking it is present:
polling proceeds with whatever the field held (rendered "undefined" when
absent). -/
def soraSubmitStage (env : SoraEnv) (t0 : Nat) : List SoraEv × Out :=
  if env.createOk = false then
    ([.submit], ⟨env.createStatus, some "Sora job creation failed"⟩)
  else
    let jid := jsStr env.createId
    let run := pollLoop (soraExits env) (t0 + SORA_MAX_WAIT) SORA_INTERVAL (by decide) t0 0
    let evs := SoraEv.submit :: List.replicate run.iters (SoraEv.pollQuery jid)
    match run.hit with
    | none => (evs, ⟨500, some "Timed out waiting for video (12 min limit reached)."⟩)
    | some k =>
      if env.pollOk k = false then (evs, ⟨500, some "Poll failed"⟩)
      else
        let job := env.pollJob k
        if job.status = "failed" then (evs, ⟨500, some "Video generation failed"⟩)
        else if env.videoOk = false then
          (evs ++ [.download], ⟨500, some "Failed to download video from OpenAI"⟩)
        else
          let key := soraFileName (jsStr job.id)
          match env.uploadErr with
          | some _ => (evs ++ [.download, .upload key], ⟨500, some "Supabase Storage upload failed"⟩)
          | none => (evs ++ [.download, .upload key], ⟨200, none⟩)

/-- The full Sora handler. -/
def soraHandler (r : SoraRequest) (env : SoraEnv) (t0 : Nat) : List SoraEv × Out :=
  match soraValidate r with
  | some o => ([], o)
  | none =>
    match r.input_reference_url with
    | some _ =>
      if env.refOk then
        let rest := soraSubmitStage env t0
        (SoraEv.refFetch :: rest.1, rest.2)
      else ([.refFetch], ⟨400, some "Could not fetch input_reference_url"⟩)
    | none => soraSubmitStage env t0

/-! ## HeyGen endpoint (`supabase/functions/heygen-video-generation/index.ts`) -/

def FALLBACK_AVATAR_ID : String := "Angela-inTshirt-20220820"

def FALLBACK_VOICE_ID : String := "1bd001e7e50f421d891986aad5158bc8"

structure HeygenRequest where
  heygen_api_key : String
  script : String
  avatar_id : Option String
  voice_id : Option String
  avatar_style : Option String
  width : Option Nat
  height : Option Nat
  background_color : Option String
  title : Option String
  speed : Option Rat
deriving DecidableEq, Repr

def heygenValidate (r : HeygenRequest) : Option Out :=
  if jsTrim r.heygen_api_key = "" then some ⟨400, some "heygen_api_key is required"⟩
  else if jsTrim r.script = "" then some ⟨400, some "script is required"⟩
  else if r.speed.getD 1 < 1 / 2 ∨ r.speed.getD 1 > 2 then
    some ⟨400, some "speed must be between 0.5 and 2.0"⟩
  else none

/-- Outcome of one catalog discovery call: the fetch itself threw, the
response was non-success, or it succeeded with a list of entries. -/
inductive CatalogFetch (α : Type)
  | threw
  | notOk
  | ok (entries : List α)
deriving DecidableEq, Repr

structure AvatarEntry where
  avatar_id : Option String
deriving DecidableEq, Repr

structure VoiceEntry where
  voice_id : Option String
  language : Option String
  locale : Option String
deriving DecidableEq, Repr

/-- `fetchFirstAvatarId`: every failure of the discovery call (thrown
fetch, non-success response, empty catalog) is caught, a warning logged,
and the hardcoded fallback returned. -/
def fetchFirstAvatarId : CatalogFetch AvatarEntry → Option String
  | .threw => some FALLBACK_AVATAR_ID
  | .notOk => some FALLBACK_AVATAR_ID
  | .ok [] => some FALLBACK_AVATAR_ID
  | .ok (a :: _) => a.avatar_id

/-- The voice list lookup prefers an English voice when available. -/
def findEnglishVoice (vs : List VoiceEntry) : Option VoiceEntry :=
  vs.find? fun v =>
    (v.language == some "English")
      || (match v.locale with
          | some l => l.startsWith "en"
          | none => false)

/-- `fetchFirstVoiceId`: same fallback structure as the avatar lookup. -/
def fetchFirstVoiceId : CatalogFetch VoiceEntry → Option String
  | .threw => some FALLBACK_VOICE_ID
  | .notOk => some FALLBACK_VOICE_ID
  | .ok [] => some FALLBACK_VOICE_ID
  | .ok (v :: vs) => ((findEnglishVoice (v :: vs)).getD v).voice_id

structure HeygenPayload where
  title : String
  avatar_id : Option String
  avatar_style : String
  input_text : String
  voice_id : Option String
  speed : Rat
  background_color : String
  width : Nat
  height : Nat
deriving DecidableEq, Repr

/-- The HeyGen submission payload with documented defaults filled in for
every optional field the caller did not supply. -/
def heygenPayloadOf (r : HeygenRequest) (avatar voice : Option String) : HeygenPayload :=
  { title := r.title.getD "Generated Video"
    avatar_id := avatar
    avatar_style := r.avatar_style.getD "normal"
    input_text := r.script
    voice_id := voice
    speed := r.speed.getD 1
    background_color := r.background_color.getD "#ffffff"
    width := r.width.getD 1280
    height := r.height.getD 720 }

structure HeygenJob where
  status : String
  video_url : Option String
  error : Option String
deriving DecidableEq, Repr

structure HeygenEnv where
  avatarCatalog : CatalogFetch AvatarEntry
  voiceCatalog : CatalogFetch VoiceEntry
  createOk : Bool
  createStatus : Nat
  createVideoId : Option String
  pollOk : Nat → Bool
  pollJob : Nat → HeygenJob
  videoOk : Bool
  uploadErr : Option String

inductive HeygenEv
  | catalogAvatars
  | catalogVoices
  | submit (p : HeygenPayload)
  | pollQuery
  | download (url : String)
  | upload (key : String)
deriving DecidableEq, Repr

def HEYGEN_MAX_WAIT : Nat := 15 * 60 * 1000

def HEYGEN_INTERVAL : Nat := 10000

def heygenExits (env : HeygenEnv) (k : Nat) : Bool :=
  !env.pollOk k || ((env.pollJob k).status == "completed")
    || ((env.pollJob k).status == "failed")

def heygenFileName (videoId : String) : String := videoId ++ ".mp4"

/-- Resolution of `avatar_id`: the caller's trimmed value when truthy,
otherwise the catalog lookup (which happens only in that case). -/
def heygenResolveAvatar (r : HeygenRequest) (env : HeygenEnv) :
    List HeygenEv × Option String :=
  match r.avatar_id with
  | some s =>
    if jsTrim s = "" then ([.catalogAvatars], fetchFirstAvatarId env.avatarCatalog)
    else ([], some (jsTrim s))
  | none => ([.catalogAvatars], fetchFirstAvatarId env.avatarCatalog)

def heygenResolveVoice (r : HeygenRequest) (env : HeygenEnv) :
    List HeygenEv × Option String :=
  match r.voice_id with
  | some s =>
    if jsTrim s = "" then ([.catalogVoices], fetchFirstVoiceId env.voiceCatalog)
    else ([], some (jsTrim s))
  | none => ([.catalogVoices], fetchFirstVoiceId env.voiceCatalog)

/-- HeyGen run from a terminal poll response onward: a reported failure,
a completed status with no `video_url`, a failed download and a failed
upload are distinct error conditions. -/
def heygenAfterPoll (env : HeygenEnv) (videoId : String) (job : HeygenJob) :
    List HeygenEv × Out :=
  if job.status = "failed" then ([], ⟨500, some "HeyGen video generation failed"⟩)
  else
    match job.video_url with
    | none => ([], ⟨500, some "HeyGen returned completed status but no video_url."⟩)
    | some u =>
      if env.videoOk = false then
        ([.download u], ⟨500, some "Failed to download video from HeyGen"⟩)
      else
        match env.uploadErr with
        | some _ =>
          ([.download u, .upload (heygenFileName videoId)],
            ⟨500, some "Supabase Storage upload failed"⟩)
        | none =>
          ([.download u, .upload (heygenFileName videoId)], ⟨200, none⟩)

def heygenSubmitStage (r : HeygenRequest) (env : HeygenEnv)
    (avatar voice : Option String) (t0 : Nat) : List HeygenEv × Out :=
  let p := heygenPayloadOf r avatar voice
  if env.createOk = false then
    ([.submit p], ⟨env.createStatus, some "HeyGen video creation failed"⟩)
  else
    match env.createVideoId with
    | none => ([.submit p], ⟨500, some "HeyGen did not return a video_id"⟩)
    | some vid =>
      let run := pollLoop (heygenExits env) (t0 + HEYGEN_MAX_WAIT) HEYGEN_INTERVAL (by decide) t0 0
      let evs := HeygenEv.submit p :: List.replicate run.iters HeygenEv.pollQuery
      match run.hit with
      | none => (evs, ⟨500, some "Timed out waiting for HeyGen video (15 min limit reached)."⟩)
      | some k =>
        if env.pollOk k = false then (evs, ⟨500, some "Poll failed"⟩)
        else
          let rest := heygenAfterPoll env vid (env.pollJob k)
          (evs ++ rest.1, rest.2)

/-- The full HeyGen handler: validate, resolve avatar/voice, submit,
poll, download, materialize. -/
def heygenHandler (r : HeygenRequest) (env : HeygenEnv) (t0 : Nat) :
    List HeygenEv × Out :=
  match heygenValidate r with
  | some o => ([], o)
  | none =>
    let ra := heygenResolveAvatar r env
    let rv := heygenResolveVoice r env
    let rest := heygenSubmitStage r env ra.2 rv.2 t0
    (ra.1 ++ rv.1 ++ rest.1, rest.2)

/-! ## Kling endpoint (`unnamed/part_001`, deploy path
`supabase/functions/kling-video/index.ts`) -/

structure KlingRequest where
  access_key : String
  secret_key : String
  prompt : String
  negative_prompt : Option String
  model_name : Option String
  mode : Option String
  duration : Option Nat
  aspect_ratio : Option String
  cfg_scale : Option Rat
  image_url : Option String
  image_tail_url : Option String
  camera_type : Option String
  camera_horizontal : Option Rat
  camera_vertical : Option Rat
  camera_pan : Option Rat
  camera_tilt : Option Rat
  camera_roll : Option Rat
  camera_zoom : Option Rat
deriving DecidableEq, Repr

/-- `body.duration && ![5, 10].includes(body.duration)`: a present,
truthy (non-zero) duration other than 5 or 10. -/
def klingDurationBad : Option Nat → Bool
  | some d => decide (d ≠ 0) && decide (d ≠ 5 ∧ d ≠ 10)
  | none => false

/-- `body.cfg_scale !== undefined && (cfg_scale < 0 || cfg_scale > 1)`. -/
def klingCfgBad : Option Rat → Bool
  | some c => decide (c < 0 ∨ c > 1)
  | none => false

/-- Kling request validation, in source order.  The
`kling-v2-1-master` / `std` check fires only when `mode` is supplied
explicitly: an omitted mode is defaulted to "std" later, in the payload
build. -/
def klingValidate (r : KlingRequest) : Option Out :=
  if jsTrim r.access_key = "" then some ⟨400, some "access_key is required"⟩
  else if jsTrim r.secret_key = "" then some ⟨400, some "secret_key is required"⟩
  else if jsTrim r.prompt = "" then some ⟨400, some "prompt is required"⟩
  else if r.prompt.length > 2500 then some ⟨400, some "prompt must be under 2500 characters"⟩
  else if klingDurationBad r.duration then some ⟨400, some "duration must be 5 or 10"⟩
  else if klingCfgBad r.cfg_scale then some ⟨400, some "cfg_scale must be between 0 and 1"⟩
  else if r.model_name = some "kling-v2-1-master" ∧ r.mode = some "std" then
    some ⟨400, some "kling-v2-1-master only supports mode: pro"⟩
  else none

structure CameraConfig where
  horizontal : Rat
  vertical : Rat
  pan : Rat
  tilt : Rat
  roll : Rat
  zoom : Rat
deriving DecidableEq, Repr

structure CameraControl where
  type : String
  config : CameraConfig
deriving DecidableEq, Repr

structure KlingPayload where
  model_name : String
  prompt : String
  mode : String
  duration : String
  aspect_ratio : String
  cfg_scale : Rat
  negative_prompt : Option String
  image : Option String
  image_tail : Option String
  camera_control : Option CameraControl
deriving DecidableEq, Repr

/-- The payload built by `createVideoTask`, defaults included
(`mode ?? "std"`, `duration ?? 5`, …). -/
def klingPayloadOf (r : KlingRequest) : KlingPayload :=
  let isI2V := jsTruthyStr r.image_url
  { model_name := r.model_name.getD "kling-v1-6"
    prompt := r.prompt
    mode := r.mode.getD "std"
    duration := toString (r.duration.getD 5)
    aspect_ratio := r.aspect_ratio.getD "16:9"
    cfg_scale := r.cfg_scale.getD (1 / 2)
    negative_prompt := if jsTruthyStr r.negative_prompt then r.negative_prompt else none
    image := if isI2V then r.image_url else none
    image_tail := if isI2V && jsTruthyStr r.image_tail_url then r.image_tail_url else none
    camera_control :=
      if !isI2V && jsTruthyStr r.camera_type then
        some { type := r.camera_type.getD ""
               config :=
                 { horizontal := r.camera_horizontal.getD 0
                   vertical := r.camera_vertical.getD 0
                   pan := r.camera_pan.getD 0
                   tilt := r.camera_tilt.getD 0
                   roll := r.camera_roll.getD 0
                   zoom := r.camera_zoom.getD 0 } }
      else none }

/-- A decoded Kling JWT payload: issuer, expiry and not-before, in Unix
seconds. -/
structure JwtPayload where
  iss : String
  exp : Int
  nbf : Int
deriving DecidableEq, Repr

/-- The payload `generateJWT` builds at issuance time `now`. -/
def klingJwtPayloadAt (now : Int) (accessKey : String) : JwtPayload :=
  { iss := accessKey, exp := now + 1800, nbf := now - 5 }

structure Jwt where
  alg : String
  typ : String
  payload : JwtPayload
  signingInput : String
  signature : String
deriving DecidableEq, Repr

/-- `generateJWT` from the Kling source.  The base64url/JSON encoding
(`btoa(JSON.stringify(...))` with URL-safe substitutions) and the Web
Crypto HMAC-SHA256 primitive are external to the repository, so they are
passed in as the parameters `encHeader`/`encPayload` and `hmacSHA256`;
everything else mirrors the source: header `{alg: HS256, typ: JWT}`,
payload `iss`/`exp = now + 1800`/`nbf = now - 5`, signature computed from
the secret key over the dot-joined signing input. -/
def generateJWT (encHeader : String) (encPayload : JwtPayload → String)
    (hmacSHA256 : String → String → String) (now : Int)
    (accessKey secretKey : String) : Jwt :=
  let payload := klingJwtPayloadAt now accessKey
  let signingInput := encHeader ++ "." ++ encPayload payload
  { alg := "HS256"
    typ := "JWT"
    payload := payload
    signingInput := signingInput
    signature := hmacSHA256 secretKey signingInput }

structure KlingVideo where
  url : String
  cover_image_url : Option String
  duration : Option String
deriving DecidableEq, Repr

/-- A Kling poll response: transport success flag, HTTP status, API
`code`, task status and (on success) the result videos. -/
structure KlingPollResp where
  ok : Bool
  httpStatus : Nat
  code : Int
  task_status : String
  task_status_msg : Option String
  videos : List KlingVideo
deriving DecidableEq, Repr

def KLING_MAX_WAIT : Nat := 15 * 60 * 1000

def KLING_INTERVAL : Nat := 10000

/-- The Kling poll loop keeps polling only on statuses `submitted` /
`processing` with `code = 0`; every other response (transport failure,
API error, `succeed`, `failed`) ends it. -/
def klingExits (resp : Nat → KlingPollResp) (k : Nat) : Bool :=
  !(resp k).ok || decide ((resp k).code ≠ 0)
    || ((resp k).task_status == "succeed") || ((resp k).task_status == "failed")

/-- Credential-related events of a Kling run. -/
inductive KlingEv
  | credSign
  | submit (p : KlingPayload)
  | refreshCheck (didRefresh : Bool)
  | statusQuery
deriving DecidableEq, Repr

/-- `pollWithJwtRefresh` from the Kling handler: a single check of
`Date.now() > jwtRefreshAt` (regenerating the JWT if it fires), then one
call of `pollTask`, whose whole loop runs on the resulting token.  The
returned trace records the refresh check followed by one event per
status query. -/
def pollWithJwtRefresh (resp : Nat → KlingPollResp) (tStart jwtRefreshAt : Nat) :
    List KlingEv × PollRun :=
  let run := pollLoop (klingExits resp) (tStart + KLING_MAX_WAIT) KLING_INTERVAL (by decide) tStart 0
  (KlingEv.refreshCheck (decide (jwtRefreshAt < tStart)) ::
    List.replicate run.iters KlingEv.statusQuery, run)

structure KlingEnv where
  createOk : Bool
  createStatus : Nat
  createCode : Int
  taskId : Option String
  pollResp : Nat → KlingPollResp

/-- The full Kling handler: validate, sign the JWT, create the task,
poll (with the one-shot refresh check), map the terminal response.
Every thrown error surfaces as a 500 through the handler's catch. -/
def klingHandler (r : KlingRequest) (env : KlingEnv) (t0 : Nat) :
    List KlingEv × Out :=
  match klingValidate r with
  | some o => ([], o)
  | none =>
    let p := klingPayloadOf r
    let evs := [KlingEv.credSign, KlingEv.submit p]
    if env.createOk = false then (evs, ⟨500, some "Kling task creation failed"⟩)
    else if env.createCode ≠ 0 then (evs, ⟨500, some "Kling API error"⟩)
    else
      match env.taskId with
      | none => (evs, ⟨500, some "No task_id returned from Kling API"⟩)
      | some _ =>
        let pr := pollWithJwtRefresh env.pollResp t0 (t0 + 25 * 60 * 1000)
        let evs2 := evs ++ pr.1
        match pr.2.hit with
        | none => (evs2, ⟨500, some "Kling task timed out (15 min limit reached)."⟩)
        | some k =>
          let rk := env.pollResp k
          if rk.ok = false then (evs2, ⟨500, some "Kling poll failed"⟩)
          else if rk.code ≠ 0 then (evs2, ⟨500, some "Kling poll error"⟩)
          else if rk.task_status = "succeed" then
            match rk.videos with
            | [] => (evs2, ⟨500, some "Task succeeded but no videos returned."⟩)
            | _ :: _ => (evs2, ⟨200, none⟩)
          else (evs2, ⟨500, some "Kling video generation failed"⟩)

def countQueries (l : List KlingEv) : Nat :=
  l.countP fun e => match e with | KlingEv.statusQuery => true | _ => false

def countChecks (l : List KlingEv) : Nat :=
  l.countP fun e => match e with | KlingEv.refreshCheck _ => true | _ => false

/-- "The refresh check is invoked before each status query": in every
prefix of the trace, the refresh checks performed so far dominate the
status queries performed so far. -/
def refreshBeforeEachQuery (l : List KlingEv) : Bool :=
  (List.range (l.length + 1)).all fun n =>
    countQueries (l.take n) ≤ countChecks (l.take n)

/-! ## Whisper transcript endpoint
(`supabase/functions/openai-transcript-generation/index.ts`) -/

/-- The response obtained when fetching the audio body. -/
structure AudioResp where
  ok : Bool
  status : Nat
  contentType : Option String
  size : Nat
deriving DecidableEq, Repr

/-- The Whisper API upload limit, in bytes. -/
def WHISPER_LIMIT : Nat := 25 * 1024 * 1024

/-- The size-limit error message (the source renders the size in MB with
one decimal via `toFixed(1)`; the MB figure is modelled with natural
division). -/
def tooLargeMsg (size : Nat) : String :=
  "Audio file is too large (" ++ toString (size / 1024 / 1024)
    ++ "MB). Whisper API limit is 25MB."

/-- Pick the upload extension from the content type. -/
def extFor (ct : String) : String :=
  if includesChars "mp4".data ct.data || includesChars "m4a".data ct.data then "m4a"
  else if includesChars "webm".data ct.data then "webm"
  else if includesChars "wav".data ct.data then "wav"
  else "mp3"

/-- `fetchAudioBlob`: reject a failed fetch, then reject any body larger
than 25MB, before shaping the (size, filename) pair handed to the
Whisper call. -/
def fetchAudioBlob (a : AudioResp) : Except String (Nat × String) :=
  if a.ok = false then
    .error ("Failed to fetch audio from URL: " ++ toString a.status)
  else
    let ct := a.contentType.getD "audio/mpeg"
    if a.size > WHISPER_LIMIT then .error (tooLargeMsg a.size)
    else .ok (a.size, "audio." ++ extFor ct)

/-- Externally visible actions of the transcript pipeline; a Whisper
call records the size of the uploaded blob. -/
inductive WEv
  | audioFetch
  | whisperCall (size : Nat)
deriving DecidableEq, Repr

/-- The fetch-then-transcribe pipeline of the transcript handler:
`fetchAudioBlob` runs first and any error it raises surfaces as a 500
with no Whisper request; only a blob it accepted is sent to Whisper. -/
def transcriptRun (a : AudioResp) (whisperOk : Bool) : List WEv × Out :=
  match fetchAudioBlob a with
  | .error m => ([.audioFetch], ⟨500, some m⟩)
  | .ok blob =>
    if whisperOk then ([.audioFetch, .whisperCall blob.1], ⟨200, none⟩)
    else ([.audioFetch, .whisperCall blob.1], ⟨500, some "Whisper API error"⟩)

/-! ## Materialization (Supabase Storage)

The storage service itself is outside the repository.  Modelled from the
spec: durable storage offers `upload(bucket, key, bytes, contentType,
overwrite) -> ok|error` — refusing to overwrite an existing key unless
`upsert` is set — and `publicUrl(bucket, key) -> URL`, a pure function
of bucket and key. -/

/-- Modelled from the spec: the store write.  With `upsert := false` an
existing object under the key is an error; with `upsert := true` the
object is overwritten. -/
def storeUpload {α : Type} (store : String → Option α) (key : String)
    (bytes : α) (upsert : Bool) : (String → Option α) × Option String :=
  if upsert = false ∧ (store key).isSome then
    (store, some "The resource already exists")
  else
    (fun k => if k = key then some bytes else store k, none)

/-- Modelled from the spec: the stable public URL of a stored object, a
deterministic function of bucket and key. -/
def publicUrl (supabaseUrl bucket key : String) : String :=
  supabaseUrl ++ "/storage/v1/object/public/" ++ bucket ++ "/" ++ key

/-- Result of materializing one artifact. -/
structure Materialized (α : Type) where
  store : String → Option α
  key : String
  url : String
  uploadErr : Option String

/-- The Veo materialization step: key derived from the operation name
(slashes normalized, fixed ".mp4" extension), written with
`upsert: true` into the public `veo-videos` bucket. -/
def veoMaterialize {α : Type} (supabaseUrl opName : String) (bytes : α)
    (store : String → Option α) : Materialized α :=
  let key := veoFileName opName
  let up := storeUpload store key bytes true
  ⟨up.1, key, publicUrl supabaseUrl "veo-videos" key, up.2⟩

/-- The Sora materialization step: key is the job id plus ".mp4",
written with `upsert: true` into the public `sora-videos` bucket. -/
def soraMaterialize {α : Type} (supabaseUrl id : String) (bytes : α)
    (store : String → Option α) : Materialized α :=
  let key := soraFileName id
  let up := storeUpload store key bytes true
  ⟨up.1, key, publicUrl supabaseUrl "sora-videos" key, up.2⟩

/-! ## Concrete inputs used by counterexamples and witnesses -/

/-- A Kling poll-response stream: `processing` on the first query, then
`succeed` with one video. -/
def klingRespProcThenSucceed : Nat → KlingPollResp := fun k =>
  if k = 0 then ⟨true, 200, 0, "processing", none, []⟩
  else ⟨true, 200, 0, "succeed", none, [⟨"https://kling.example/v.mp4", some "c.jpg", some "5"⟩]⟩

/-- A Kling request selecting `kling-v2-1-master` and leaving `mode` to
its documented default. -/
def klingReqMasterDefaultMode : KlingRequest :=
  { access_key := "ak", secret_key := "sk", prompt := "a cat on a roof"
    negative_prompt := none, model_name := some "kling-v2-1-master", mode := none
    duration := none, aspect_ratio := none, cfg_scale := none
    image_url := none, image_tail_url := none, camera_type := none
    camera_horizontal := none, camera_vertical := none, camera_pan := none
    camera_tilt := none, camera_roll := none, camera_zoom := none }

/-- A Kling environment whose submission is rejected upstream. -/
def klingEnvRejected : KlingEnv :=
  { createOk := false, createStatus := 500, createCode := 0, taskId := none
    pollResp := klingRespProcThenSucceed }

/-- A Sora environment whose acceptance succeeds but carries no `id`;
the first status query reports `completed`. -/
def soraEnvMissingId : SoraEnv :=
  { refOk := true, createOk := true, createStatus := 200, createId := none
    pollOk := fun _ => true
    pollJob := fun _ => ⟨some "video_123", "completed", none⟩
    videoOk := true, uploadErr := none }

/-- A minimal valid Veo request with every optional field omitted. -/
def veoReqBare : VeoRequest :=
  { gemini_api_key := "gk", prompt := "a lion", model := none, aspect_ratio := none
    resolution := none, duration_seconds := none, negative_prompt := none
    image_url := none, person_generation := none }

/-- A minimal valid HeyGen request with every optional field omitted. -/
def heygenReqBare : HeygenRequest :=
  { heygen_api_key := "hk", script := "hello world", avatar_id := none, voice_id := none
    avatar_style := none, width := none, height := none, background_color := none
    title := none, speed := none }

/-- A HeyGen environment whose two catalog discovery calls both return a
non-success response, everything downstream healthy. -/
def heygenEnvCatalogDown : HeygenEnv :=
  { avatarCatalog := .notOk, voiceCatalog := .notOk, createOk := true
    createStatus := 200, createVideoId := some "vid_1"
    pollOk := fun _ => true
    pollJob := fun _ => ⟨"completed", some "https://hg.example/u.mp4", none⟩
    videoOk := true, uploadErr := none }

/-- A Veo environment whose submission is rejected upstream with 503. -/
def veoEnvRejected : VeoEnv :=
  { imageOk := true, fetchedImage := ⟨"image/jpeg", "d"⟩, createOk := false
    createStatus := 503, createName := none
    pollOk := fun _ => true, pollOp := fun _ => ⟨true, none, some "u"⟩
    videoOk := true, uploadErr := none }

/-- A Veo environment that accepts the submission but answers with no
operation name. -/
def veoEnvNoName : VeoEnv :=
  { veoEnvRejected with createOk := true, createName := none }

/-- A Veo environment whose artifact download fails at the transport
level. -/
def veoEnvDownloadFail : VeoEnv :=
  { veoEnvRejected with createOk := true, videoOk := false }

/-- A Sora environment whose submission is rejected upstream. -/
def soraEnvRejected : SoraEnv :=
  { refOk := true, createOk := false, createStatus := 500, createId := none
    pollOk := fun _ => true, pollJob := fun _ => ⟨some "v", "completed", none⟩
    videoOk := true, uploadErr := none }

/-- A completed Veo operation carrying no video URI. -/
def veoOpNoUri : VeoOp := ⟨true, none, none⟩

/-- A completed HeyGen job carrying no video URL. -/
def heygenJobNoUrl : HeygenJob := ⟨"completed", none, none⟩

/-- An audio fetch response one byte over the Whisper limit. -/
def audioTooBig : AudioResp := ⟨true, 200, none, WHISPER_LIMIT + 1⟩

/-! ## Poll-loop bounds -/

theorem ceilDiv_one_le (d i : Nat) (hi : 0 < i) (hd : 0 < d) : 1 ≤ ceilDiv d i := by
  unfold ceilDiv
  rw [Nat.one_le_div_iff hi]
  omega

theorem ceilDiv_sub_add_one_le (d i : Nat) (hi : 0 < i) (hd : 0 < d) :
    ceilDiv (d - i) i + 1 ≤ ceilDiv d i := by
  unfold ceilDiv
  rcases le_or_lt i d with h | h
  · have h1 : d - i + i - 1 + i = d + i - 1 := by omega
    have h2 : (d - i + i - 1) / i + 1 = (d - i + i - 1 + i) / i :=
      (Nat.add_div_right _ hi).symm
    rw [h2, h1]
  · have h0 : d - i = 0 := by omega
    have h2 : (0 + i - 1) / i = 0 := Nat.div_eq_of_lt (by omega)
    rw [h0, h2]
    have h3 : 1 ≤ (d + i - 1) / i := (Nat.one_le_div_iff hi).2 (by omega)
    omega

theorem pollLoop_finalTime_lt (e : Nat → Bool) (d i : Nat) (hp : 0 < i) :
    ∀ now k, now < d + i → (pollLoop e d i hp now k).finalTime < d + i := by
  intro now k
  induction now, k using pollLoop.induct e d i hp with
  | case1 now k h he =>
    intro _
    rw [pollLoop]
    simp [h, he] <;> omega
  | case2 now k h he ih =>
    intro _
    rw [pollLoop]
    simp [h, he]
    exact ih (by omega)
  | case3 now k h =>
    intro hn
    rw [pollLoop]
    simp [h] <;> omega

theorem pollLoop_iters_le (e : Nat → Bool) (d i : Nat) (hp : 0 < i) :
    ∀ now k, (pollLoop e d i hp now k).iters ≤ k + ceilDiv (d - now) i := by
  intro now k
  induction now, k using pollLoop.induct e d i hp with
  | case1 now k h he =>
    rw [pollLoop]
    simp [h, he]
    have h1 := ceilDiv_one_le (d - now) i hp (by omega)
    omega
  | case2 now k h he ih =>
    rw [pollLoop]
    simp [h, he]
    have h1 := ceilDiv_sub_add_one_le (d - now) i hp (by omega)
    have h2 : d - now - i = d - (now + i) := by omega
    rw [h2] at h1
    omega
  | case3 now k h =>
    rw [pollLoop]
    simp [h]

/-- C2: every poll-loop run — with the deadline computed as the start
time plus the provider-specific maximum wait and a constant poll
interval — ends (with a terminal hit or a timeout) strictly before
`deadline + one poll interval`, and performs at most
`ceil(maxWaitMs / intervalMs)` status queries; at the providers'
constants that bound is 60 (Veo), 72 (Sora) and 90 (HeyGen, Kling)
iterations. -/
theorem poll_loop_bounded_termination (exits : Nat → Bool)
    (maxWaitMs intervalMs t0 : Nat) (hpos : 0 < intervalMs) :
    (pollLoop exits (t0 + maxWaitMs) intervalMs hpos t0 0).finalTime
        < t0 + maxWaitMs + intervalMs ∧
      (pollLoop exits (t0 + maxWaitMs) intervalMs hpos t0 0).iters
        ≤ ceilDiv maxWaitMs intervalMs ∧
      ceilDiv VEO_MAX_WAIT VEO_INTERVAL = 60 ∧
      ceilDiv SORA_MAX_WAIT SORA_INTERVAL = 72 ∧
      ceilDiv HEYGEN_MAX_WAIT HEYGEN_INTERVAL = 90 ∧
      ceilDiv KLING_MAX_WAIT KLING_INTERVAL = 90 := by
  refine ⟨pollLoop_finalTime_lt _ _ _ _ t0 0 (by omega), ?_, by decide, by decide, by decide, by decide⟩
  have h := pollLoop_iters_le exits (t0 + maxWaitMs) intervalMs hpos t0 0
  have h2 : t0 + maxWaitMs - t0 = maxWaitMs := by omega
  rw [h2] at h
  simpa using h

theorem poll_loop_bounded_termination_witness :
    0 < 10 ∧
      ((pollLoop (fun _ => false) (0 + 25) 10 (by norm_num) 0 0).finalTime
          < 0 + 25 + 10 ∧
        (pollLoop (fun _ => false) (0 + 25) 10 (by norm_num) 0 0).iters
          ≤ ceilDiv 25 10 ∧
        ceilDiv VEO_MAX_WAIT VEO_INTERVAL = 60 ∧
        ceilDiv SORA_MAX_WAIT SORA_INTERVAL = 72 ∧
        ceilDiv HEYGEN_MAX_WAIT HEYGEN_INTERVAL = 90 ∧
        ceilDiv KLING_MAX_WAIT KLING_INTERVAL = 90) :=
  ⟨by norm_num, poll_loop_bounded_termination (fun _ => false) 25 10 0 (by norm_num)⟩

/-! ## Credential builder (C9) -/

/-- C9: `generateJWT` invoked at issuance time `t` builds a token whose
payload states `iss` equal to the caller's access key, `exp = t + 1800`
(30 minutes after issuance) and `nbf = t - 5` (five seconds in the
past), under an HS256 header, and seals it with the HMAC-SHA256
signature computed from the secret key over the token's signing
input. -/
theorem generateJWT_payload_and_seal (encHeader : String)
    (encPayload : JwtPayload → String) (hmacSHA256 : String → String → String)
    (t : Int) (ak sk : String) :
    (generateJWT encHeader encPayload hmacSHA256 t ak sk).payload.iss = ak ∧
      (generateJWT encHeader encPayload hmacSHA256 t ak sk).payload.exp = t + 1800 ∧
      (generateJWT encHeader encPayload hmacSHA256 t ak sk).payload.nbf = t - 5 ∧
      (generateJWT encHeader encPayload hmacSHA256 t ak sk).alg = "HS256" ∧
      (generateJWT encHeader encPayload hmacSHA256 t ak sk).signature
        = hmacSHA256 sk (generateJWT encHeader encPayload hmacSHA256 t ak sk).signingInput :=
  ⟨rfl, rfl, rfl, rfl, rfl⟩

/-! ## Materialization (C3) -/

/-- C3: materializing the same job identifier twice derives the same
storage key (a deterministic function of the handle, with '/' replaced
by '_' and a fixed ".mp4" extension) and the same public URL; both
writes use upsert semantics, so neither reports a collision and the
second simply overwrites — the final store holds a single object under
that one key.  Stated for the Veo (operation-name) and Sora (job-id)
materializers. -/
theorem materialization_idempotent {α : Type} (supabaseUrl opName id : String)
    (b1 b2 : α) (store : String → Option α) :
    (veoMaterialize supabaseUrl opName b1 store).key
        = (veoMaterialize supabaseUrl opName b2
            (veoMaterialize supabaseUrl opName b1 store).store).key ∧
      (veoMaterialize supabaseUrl opName b1 store).url
        = (veoMaterialize supabaseUrl opName b2
            (veoMaterialize supabaseUrl opName b1 store).store).url ∧
      (veoMaterialize supabaseUrl opName b1 store).uploadErr = none ∧
      (veoMaterialize supabaseUrl opName b2
          (veoMaterialize supabaseUrl opName b1 store).store).uploadErr = none ∧
      (veoMaterialize supabaseUrl opName b2
          (veoMaterialize supabaseUrl opName b1 store).store).store
        = (fun k => if k = veoFileName opName then some b2 else store k) ∧
      '/' ∉ (veoFileName opName).data ∧
      (soraMaterialize supabaseUrl id b1 store).key
        = (soraMaterialize supabaseUrl id b2
            (soraMaterialize supabaseUrl id b1 store).store).key ∧
      (soraMaterialize supabaseUrl id b1 store).url
        = (soraMaterialize supabaseUrl id b2
            (soraMaterialize supabaseUrl id b1 store).store).url ∧
      (soraMaterialize supabaseUrl id b2
          (soraMaterialize supabaseUrl id b1 store).store).uploadErr = none ∧
      (soraMaterialize supabaseUrl id b2
          (soraMaterialize supabaseUrl id b1 store).store).store
        = (fun k => if k = soraFileName id then some b2 else store k) := by
  refine ⟨rfl, rfl, ?_, ?_, ?_, ?_, rfl, rfl, ?_, ?_⟩
  · simp [veoMaterialize, storeUpload]
  · simp [veoMaterialize, storeUpload]
  · funext k
    simp only [veoMaterialize, storeUpload]
    split <;> simp_all
  · intro hmem
    simp only [veoFileName] at hmem
    rcases List.mem_append.1 hmem with h | h
    · obtain ⟨c, _, heq⟩ := List.mem_map.1 (by simpa [replaceSlashes] using h)
      by_cases hc : c = '/'
      · simp [hc] at heq
      · simp [hc] at heq
    · revert h
      decide
  · simp [soraMaterialize, storeUpload]
  · funext k
    simp only [soraMaterialize, storeUpload]
    split <;> simp_all

/-! ## Normalization (C7) -/

/-- C7: payload shaping is deterministic — it is a pure function of the
request (and, for Veo, of the already-fetched first-frame image; for
HeyGen, of the resolved avatar/voice values), so two evaluations on the
same input agree — and fills the documented default for every optional
field the caller did not supply. -/
theorem normalize_deterministic_defaults :
    (∀ (r : VeoRequest) (img : Option VeoImage), veoPayloadOf r img = veoPayloadOf r img) ∧
      (∀ (r : VeoRequest) (img : Option VeoImage), r.aspect_ratio = none →
        (veoPayloadOf r img).parameters.aspectRatio = "16:9") ∧
      (∀ (r : VeoRequest) (img : Option VeoImage), r.resolution = none →
        (veoPayloadOf r img).parameters.resolution = "720p") ∧
      (∀ (r : VeoRequest) (img : Option VeoImage), r.duration_seconds = none →
        (veoPayloadOf r img).parameters.durationSeconds = "8") ∧
      (∀ (r : VeoRequest) (img : Option VeoImage), r.person_generation = none →
        (veoPayloadOf r img).parameters.personGeneration = "allow_all") ∧
      (∀ (r : VeoRequest) (img : Option VeoImage),
        (veoPayloadOf r img).parameters.numberOfVideos = 1) ∧
      (∀ (r : HeygenRequest) (av vo : Option String),
        heygenPayloadOf r av vo = heygenPayloadOf r av vo) ∧
      (∀ (r : HeygenRequest) (av vo : Option String), r.title = none →
        (heygenPayloadOf r av vo).title = "Generated Video") ∧
      (∀ (r : HeygenRequest) (av vo : Option String), r.avatar_style = none →
        (heygenPayloadOf r av vo).avatar_style = "normal") ∧
      (∀ (r : HeygenRequest) (av vo : Option String), r.width = none →
        (heygenPayloadOf r av vo).width = 1280) ∧
      (∀ (r : HeygenRequest) (av vo : Option String), r.height = none →
        (heygenPayloadOf r av vo).height = 720) ∧
      (∀ (r : HeygenRequest) (av vo : Option String), r.background_color = none →
        (heygenPayloadOf r av vo).background_color = "#ffffff") ∧
      (∀ (r : HeygenRequest) (av vo : Option String), r.speed = none →
        (heygenPayloadOf r av vo).speed = 1) := by
  refine ⟨fun _ _ => rfl, ?_, ?_, ?_, ?_, fun _ _ => rfl, fun _ _ _ => rfl, ?_, ?_, ?_, ?_, ?_, ?_⟩
  all_goals intro r a h
  all_goals first
    | (intro h2; simp [veoPayloadOf, heygenPayloadOf, h2])
    | simp [veoPayloadOf, heygenPayloadOf, h]

theorem normalize_deterministic_defaults_witness :
    veoReqBare.aspect_ratio = none ∧
      (veoPayloadOf veoReqBare none).parameters.aspectRatio = "16:9" ∧
      heygenReqBare.title = none ∧
      (heygenPayloadOf heygenReqBare none none).title = "Generated Video" :=
  ⟨rfl, normalize_deterministic_defaults.2.1 veoReqBare none rfl, rfl,
    normalize_deterministic_defaults.2.2.2.2.2.2.2.1 heygenReqBare none none rfl⟩

/-! ## Whisper size limit (C10) -/

/-- C10: an audio body over 25 * 1024 * 1024 bytes fails the run with
the size-limit error before any Whisper request, and every Whisper
request that does happen carries a blob of at most that size. -/
theorem whisper_size_limit (a : AudioResp) (w : Bool) :
    (a.ok = true → WHISPER_LIMIT < a.size →
      (transcriptRun a w).2 = ⟨500, some (tooLargeMsg a.size)⟩ ∧
        ∀ s, WEv.whisperCall s ∉ (transcriptRun a w).1) ∧
      (∀ s, WEv.whisperCall s ∈ (transcriptRun a w).1 → s ≤ WHISPER_LIMIT) := by
  constructor
  · intro h1 h2
    constructor
    · simp [transcriptRun, fetchAudioBlob, h1, h2]
    · intro s
      simp [transcriptRun, fetchAudioBlob, h1, h2]
  · intro s hs
    by_cases h1 : a.ok = false
    · simp [transcriptRun, fetchAudioBlob, h1] at hs
    · by_cases h2 : WHISPER_LIMIT < a.size
      · simp only [Bool.not_eq_false] at h1
        simp [transcriptRun, fetchAudioBlob, h1, h2] at hs
      · simp only [Bool.not_eq_false] at h1
        cases w <;> simp [transcriptRun, fetchAudioBlob, h1, h2] at hs <;> omega

theorem whisper_size_limit_witness :
    audioTooBig.ok = true ∧ WHISPER_LIMIT < audioTooBig.size ∧
      ((transcriptRun audioTooBig true).2 = ⟨500, some (tooLargeMsg audioTooBig.size)⟩ ∧
        ∀ s, WEv.whisperCall s ∉ (transcriptRun audioTooBig true).1) :=
  ⟨rfl, by simp [audioTooBig], (whisper_size_limit audioTooBig true).1 rfl (by simp [audioTooBig])⟩

/-! ## HeyGen catalog fallback (C8) -/

theorem heygenSubmitStage_submits (r : HeygenRequest) (env : HeygenEnv)
    (av vo : Option String) (t0 : Nat) :
    HeygenEv.submit (heygenPayloadOf r av vo) ∈ (heygenSubmitStage r env av vo t0).1 := by
  unfold heygenSubmitStage
  by_cases h : env.createOk = false
  · simp [h]
  · simp only [h, if_false]
    cases hc : env.createVideoId with
    | none => simp
    | some vid =>
      simp only
      rcases hhit : (pollLoop (heygenExits env) (t0 + HEYGEN_MAX_WAIT) HEYGEN_INTERVAL (by decide) t0 0).hit with _ | k
      · simp [hhit]
      · by_cases hp : env.pollOk k = false <;> simp [hhit, hp]

/-- C8: when the caller omits `avatar_id` (resp. `voice_id`) and the
catalog discovery call fails — thrown fetch, non-success response, or an
empty catalog — the failure never fails the run: the hardcoded fallback
constant is substituted and the run proceeds to submission with that
value in the payload. -/
theorem heygen_catalog_failure_falls_back (r : HeygenRequest) (env : HeygenEnv)
    (t0 : Nat) (hv : heygenValidate r = none) :
    (r.avatar_id = none →
      (env.avatarCatalog = .threw ∨ env.avatarCatalog = .notOk ∨ env.avatarCatalog = .ok []) →
      fetchFirstAvatarId env.avatarCatalog = some FALLBACK_AVATAR_ID ∧
        ∃ p, HeygenEv.submit p ∈ (heygenHandler r env t0).1 ∧
          p.avatar_id = some FALLBACK_AVATAR_ID) ∧
      (r.voice_id = none →
        (env.voiceCatalog = .threw ∨ env.voiceCatalog = .notOk ∨ env.voiceCatalog = .ok []) →
        fetchFirstVoiceId env.voiceCatalog = some FALLBACK_VOICE_ID ∧
          ∃ p, HeygenEv.submit p ∈ (heygenHandler r env t0).1 ∧
            p.voice_id = some FALLBACK_VOICE_ID) := by
  constructor
  · intro ha hcat
    have hfa : fetchFirstAvatarId env.avatarCatalog = some FALLBACK_AVATAR_ID := by
      rcases hcat with h | h | h <;> rw [h] <;> rfl
    refine ⟨hfa, ⟨heygenPayloadOf r (heygenResolveAvatar r env).2 (heygenResolveVoice r env).2, ?_, ?_⟩⟩
    · simp only [heygenHandler, hv, List.mem_append]
      exact Or.inr (heygenSubmitStage_submits r env _ _ t0)
    · simp [heygenPayloadOf, heygenResolveAvatar, ha, hfa]
  · intro ha hcat
    have hfv : fetchFirstVoiceId env.voiceCatalog = some FALLBACK_VOICE_ID := by
      rcases hcat with h | h | h <;> rw [h] <;> rfl
    refine ⟨hfv, ⟨heygenPayloadOf r (heygenResolveAvatar r env).2 (heygenResolveVoice r env).2, ?_, ?_⟩⟩
    · simp only [heygenHandler, hv, List.mem_append]
      exact Or.inr (heygenSubmitStage_submits r env _ _ t0)
    · simp [heygenPayloadOf, heygenResolveVoice, ha, hfv]

theorem heygenValidate_bare : heygenValidate heygenReqBare = none := by
  unfold heygenValidate
  rw [if_neg (by decide), if_neg (by decide), if_neg (by norm_num [heygenReqBare])]

theorem heygen_catalog_failure_falls_back_witness :
    heygenValidate heygenReqBare = none ∧
      (fetchFirstAvatarId heygenEnvCatalogDown.avatarCatalog = some FALLBACK_AVATAR_ID ∧
        ∃ p, HeygenEv.submit p ∈ (heygenHandler heygenReqBare heygenEnvCatalogDown 0).1 ∧
          p.avatar_id = some FALLBACK_AVATAR_ID) :=
  ⟨heygenValidate_bare,
    (heygen_catalog_failure_falls_back heygenReqBare heygenEnvCatalogDown 0
        heygenValidate_bare).1
      rfl (Or.inr (Or.inl rfl))⟩

/-! ## Submission failures (C5) -/

/-- C5 counterexample: the Sora handler does not treat a success
acceptance with no `id` field as a submission failure — it proceeds to
poll, interpolating the absent identifier as the text "undefined" into
the status URL, and here even finishes the run as a success. -/
theorem sora_missing_id_still_polls :
    soraEnvMissingId.createOk = true ∧ soraEnvMissingId.createId = none ∧
      SoraEv.pollQuery "undefined" ∈ (soraSubmitStage soraEnvMissingId 0).1 ∧
      (soraSubmitStage soraEnvMissingId 0).2 = ⟨200, none⟩ := by
  have h : soraSubmitStage soraEnvMissingId 0
      = ([SoraEv.submit, SoraEv.pollQuery "undefined", SoraEv.download,
          SoraEv.upload "video_123.mp4"], ⟨200, none⟩) := by
    simp [soraSubmitStage, soraEnvMissingId, pollLoop, soraExits, jsStr,
      SORA_MAX_WAIT, SORA_INTERVAL, soraFileName]
  refine ⟨rfl, rfl, ?_, ?_⟩
  · rw [h]; decide
  · rw [h]

/-- C5 (amended): for the Veo endpoint both submission-failure cases are
terminal — a non-success acceptance is surfaced with the provider's own
status code and an upstream-rejection message, a success acceptance with
no operation name as a 500 with a malformed-acceptance message, the two
messages being distinct — and in both cases no poll query happens.  For
the Sora endpoint the same holds for a non-success acceptance; a success
acceptance missing the id is *not* detected there (see the
counterexample). -/
theorem submission_failures_terminal (r : VeoRequest) (env : VeoEnv)
    (img : Option VeoImage) (senv : SoraEnv) (t0 : Nat) :
    (env.createOk = false →
      veoSubmitStage r env img t0
        = ([.submit (veoPayloadOf r img)],
            ⟨env.createStatus, some "Veo job creation failed"⟩)) ∧
      (env.createOk = true → env.createName = none →
        veoSubmitStage r env img t0
          = ([.submit (veoPayloadOf r img)],
              ⟨500, some "Veo did not return an operation name"⟩)) ∧
      ("Veo job creation failed" ≠ "Veo did not return an operation name") ∧
      (senv.createOk = false →
        soraSubmitStage senv t0
          = ([SoraEv.submit], ⟨senv.createStatus, some "Sora job creation failed"⟩)) := by
  refine ⟨?_, ?_, by decide, ?_⟩
  · intro h
    simp [veoSubmitStage, h]
  · intro h1 h2
    simp [veoSubmitStage, h1, h2]
  · intro h
    simp [soraSubmitStage, h]

theorem submission_failures_terminal_witness :
    veoEnvRejected.createOk = false ∧
      veoSubmitStage veoReqBare veoEnvRejected none 0
        = ([.submit (veoPayloadOf veoReqBare none)],
            ⟨veoEnvRejected.createStatus, some "Veo job creation failed"⟩) ∧
      veoEnvNoName.createOk = true ∧ veoEnvNoName.createName = none ∧
      veoSubmitStage veoReqBare veoEnvNoName none 0
        = ([.submit (veoPayloadOf veoReqBare none)],
            ⟨500, some "Veo did not return an operation name"⟩) ∧
      soraEnvRejected.createOk = false ∧
      soraSubmitStage soraEnvRejected 0
        = ([SoraEv.submit], ⟨soraEnvRejected.createStatus, some "Sora job creation failed"⟩) :=
  ⟨rfl,
    (submission_failures_terminal veoReqBare veoEnvRejected none soraEnvRejected 0).1 rfl,
    rfl, rfl,
    (submission_failures_terminal veoReqBare veoEnvNoName none soraEnvRejected 0).2.1 rfl rfl,
    rfl,
    (submission_failures_terminal veoReqBare veoEnvRejected none soraEnvRejected 0).2.2.2 rfl⟩

/-! ## Succeeded without locator (C6) -/

/-- C6: a run whose poll ends in a terminal done/completed state with no
artifact locator fails with the missing-locator error and attempts no
download (its event list is empty), while a transport-level download
failure fails with a different message after a download attempt; the two
conditions are distinguishable.  Stated for the Veo and HeyGen
endpoints. -/
theorem succeeded_without_locator (env : VeoEnv) (opName : String) (op : VeoOp)
    (henv : HeygenEnv) (vid : String) (job : HeygenJob) :
    (op.errMsg = none → op.videoUri = none →
      veoAfterPoll env opName op
        = ([], ⟨500, some "Veo returned done=true but no video URI found."⟩)) ∧
      (∀ uri, op.errMsg = none → op.videoUri = some uri → env.videoOk = false →
        veoAfterPoll env opName op
          = ([.download uri], ⟨500, some "Failed to download video from Veo"⟩)) ∧
      ("Veo returned done=true but no video URI found."
        ≠ "Failed to download video from Veo") ∧
      (job.status ≠ "failed" → job.video_url = none →
        heygenAfterPoll henv vid job
          = ([], ⟨500, some "HeyGen returned completed status but no video_url."⟩)) ∧
      (∀ u, job.status ≠ "failed" → job.video_url = some u → henv.videoOk = false →
        heygenAfterPoll henv vid job
          = ([.download u], ⟨500, some "Failed to download video from HeyGen"⟩)) ∧
      ("HeyGen returned completed status but no video_url."
        ≠ "Failed to download video from HeyGen") := by
  refine ⟨?_, ?_, by decide, ?_, ?_, by decide⟩
  · intro h1 h2
    simp [veoAfterPoll, h1, h2]
  · intro uri h1 h2 h3
    simp [veoAfterPoll, h1, h2, h3]
  · intro h1 h2
    simp [heygenAfterPoll, h1, h2]
  · intro u h1 h2 h3
    simp [heygenAfterPoll, h1, h2, h3]

theorem succeeded_without_locator_witness :
    veoOpNoUri.errMsg = none ∧ veoOpNoUri.videoUri = none ∧
      veoAfterPoll veoEnvDownloadFail "operations/x" veoOpNoUri
        = ([], ⟨500, some "Veo returned done=true but no video URI found."⟩) ∧
      heygenJobNoUrl.status ≠ "failed" ∧ heygenJobNoUrl.video_url = none ∧
      heygenAfterPoll heygenEnvCatalogDown "vid_1" heygenJobNoUrl
        = ([], ⟨500, some "HeyGen returned completed status but no video_url."⟩) :=
  ⟨rfl, rfl,
    (succeeded_without_locator veoEnvDownloadFail "operations/x" veoOpNoUri
        heygenEnvCatalogDown "vid_1" heygenJobNoUrl).1 rfl rfl,
    by decide, rfl,
    (succeeded_without_locator veoEnvDownloadFail "operations/x" veoOpNoUri
        heygenEnvCatalogDown "vid_1" heygenJobNoUrl).2.2.2.1 (by decide) rfl⟩

/-! ## Kling cross-field validation (C4) -/

/-- C4: evaluation at the failing input.  A request selecting
`kling-v2-1-master` and leaving `mode` to its documented default ("std")
passes validation, after which the handler signs the JWT and submits a
payload that combines `model_name = "kling-v2-1-master"` with
`mode = "std"` — the very combination the source's own comment
("kling-v2-1-master only supports pro mode") declares unsupported and
rejects when `mode: "std"` is supplied explicitly. -/
theorem kling_master_default_mode_not_rejected :
    klingValidate klingReqMasterDefaultMode = none ∧
      (klingPayloadOf klingReqMasterDefaultMode).model_name = "kling-v2-1-master" ∧
      (klingPayloadOf klingReqMasterDefaultMode).mode = "std" ∧
      (klingHandler klingReqMasterDefaultMode klingEnvRejected 0).1
        = [KlingEv.credSign, KlingEv.submit (klingPayloadOf klingReqMasterDefaultMode)] ∧
      klingValidate { klingReqMasterDefaultMode with mode := some "std" }
        = some ⟨400, some "kling-v2-1-master only supports mode: pro"⟩ :=
  ⟨rfl, rfl, rfl, rfl, rfl⟩

/-! ## Kling JWT refresh placement (C1) -/

theorem countChecks_cons_check (b : Bool) (l : List KlingEv) :
    countChecks (KlingEv.refreshCheck b :: l) = countChecks l + 1 := by
  simp [countChecks, List.countP_cons]

theorem countQueries_cons_check (b : Bool) (l : List KlingEv) :
    countQueries (KlingEv.refreshCheck b :: l) = countQueries l := by
  simp [countQueries, List.countP_cons]

theorem countChecks_replicate (n : Nat) :
    countChecks (List.replicate n KlingEv.statusQuery) = 0 := by
  induction n with
  | zero => rfl
  | succ m ih =>
    rw [List.replicate_succ]
    simpa [countChecks, List.countP_cons] using ih

theorem countQueries_replicate (n : Nat) :
    countQueries (List.replicate n KlingEv.statusQuery) = n := by
  induction n with
  | zero => rfl
  | succ m ih =>
    rw [List.replicate_succ]
    simpa [countQueries, List.countP_cons] using ih

/-- C1 counterexample: in a Kling run whose poll loop performs two
status queries (first `processing`, then `succeed`), the trace of
`pollWithJwtRefresh` holds a single refresh check — performed once,
before the loop — followed by both queries, so the refresh check is
*not* invoked before each status query (the second query has no check
between it and the first). -/
theorem kling_refresh_not_before_each_query :
    (pollWithJwtRefresh klingRespProcThenSucceed 0 (0 + 25 * 60 * 1000)).1
        = [KlingEv.refreshCheck false, KlingEv.statusQuery, KlingEv.statusQuery] ∧
      refreshBeforeEachQuery
        (pollWithJwtRefresh klingRespProcThenSucceed 0 (0 + 25 * 60 * 1000)).1 = false := by
  have h : (pollWithJwtRefresh klingRespProcThenSucceed 0 (0 + 25 * 60 * 1000)).1
      = [KlingEv.refreshCheck false, KlingEv.statusQuery, KlingEv.statusQuery] := by
    simp [pollWithJwtRefresh, pollLoop, klingExits, klingRespProcThenSucceed,
      KLING_MAX_WAIT, KLING_INTERVAL]
  exact ⟨h, by rw [h]; decide⟩

/-- C1 (amended): the expiry check of the signed credential is performed
exactly once per `pollWithJwtRefresh` call — before the poll loop starts,
not before each status query — so the trace is one refresh check (which
fires exactly when the refresh time has passed at loop start) followed
by the loop's status queries; and a refresh performed at a strictly
later issuance time produces a token whose expiry is strictly later. -/
theorem kling_refresh_checked_once (resp : Nat → KlingPollResp)
    (tStart refreshAt : Nat) :
    (pollWithJwtRefresh resp tStart refreshAt).1
        = KlingEv.refreshCheck (decide (refreshAt < tStart))
            :: List.replicate (pollWithJwtRefresh resp tStart refreshAt).2.iters
                KlingEv.statusQuery ∧
      countChecks (pollWithJwtRefresh resp tStart refreshAt).1 = 1 ∧
      countQueries (pollWithJwtRefresh resp tStart refreshAt).1
        = (pollWithJwtRefresh resp tStart refreshAt).2.iters ∧
      (∀ (t1 t2 : Int) (ak : String), t1 < t2 →
        (klingJwtPayloadAt t1 ak).exp < (klingJwtPayloadAt t2 ak).exp) := by
  have hTrace : (pollWithJwtRefresh resp tStart refreshAt).1
      = KlingEv.refreshCheck (decide (refreshAt < tStart))
          :: List.replicate (pollWithJwtRefresh resp tStart refreshAt).2.iters
              KlingEv.statusQuery := rfl
  refine ⟨hTrace, ?_, ?_, ?_⟩
  · rw [hTrace, countChecks_cons_check, countChecks_replicate]
  · rw [hTrace, countQueries_cons_check, countQueries_replicate]
  · intro t1 t2 ak h
    simp only [klingJwtPayloadAt]
    omega

theorem kling_refresh_checked_once_witness :
    ((100 : Int) < 200) ∧
      (klingJwtPayloadAt 100 "ak").exp < (klingJwtPayloadAt 200 "ak").exp :=
  ⟨by norm_num,
    (kling_refresh_checked_once klingRespProcThenSucceed 0 0).2.2.2 100 200 "ak" (by norm_num)⟩
